import Mathlib

/-!
Verification development for the news fetch-and-normalize pipeline of
src/news_fetcher.py.

The embedding models:
  - Python values occurring in the records (None, strings, string-keyed
    dicts kept in insertion order) as the inductive type `PyVal`;
  - the wall clock as a function `Nat → String` giving the successive
    readings of the current-UTC-time call; every function threads the
    index of the next reading, and a reading is consumed exactly where
    the Python code evaluates the timestamp expression (Python's `or`
    short-circuits, so a record whose `fetched_at` is already truthy
    consumes no reading);
  - network and library effects as oracles passed in as arguments: the
    aggregation-library call result (which may raise), the parsed feed
    entries for a given query/language/country, and the HTTP response
    for given request parameters;
  - raised exceptions as `Except Err`, with the error taxonomy of the
    spec (ConfigurationError for the missing-credential ValueError,
    UpstreamError for raise_for_status, plus KeyError / TypeError /
    AttributeError for dict and attribute access failures).

The post-fetch sleep (time.sleep) has no effect on the returned data and
is not modelled; the look-back period only configures the library oracle
and is likewise folded into it.
-/

namespace NewsFetcher

/-- A Python value as it occurs in the records handled by news_fetcher.py:
the constant None, a string, or a string-keyed dict represented as an
association list in insertion order. -/
inductive PyVal where
  | none : PyVal
  | str : String → PyVal
  | dict : List (String × PyVal) → PyVal

/-- Python truthiness for the values above: None, the empty string and the
empty dict are falsy. -/
def truthy : PyVal → Bool
  | PyVal.none => false
  | PyVal.str s => s != ""
  | PyVal.dict d => !d.isEmpty

/-- Python's `a or b` on these values: `a` if truthy, else `b`. -/
def pyOr (a b : PyVal) : PyVal := if truthy a then a else b

/-- First-match lookup in an association list, as Python dict lookup
(keys are unique in the dicts the program builds, and first match is the
dict semantics for the lists we construct). -/
def lookup? : List (String × PyVal) → String → Option PyVal
  | [], _ => Option.none
  | (k, v) :: rest, key => if k = key then some v else lookup? rest key

/-- Python `a.get(key)` on a dict: None when the key is absent. -/
def dGet (d : List (String × PyVal)) (key : String) : PyVal :=
  (lookup? d key).getD PyVal.none

/-- Python `a.get(key, dflt)` on a dict. -/
def dGetD (d : List (String × PyVal)) (key : String) (dflt : PyVal) : PyVal :=
  (lookup? d key).getD dflt

/-- The error taxonomy. `configurationError` models the
`ValueError("Set NEWSAPI_KEY env var or pass --newsapi-key")` raised at
line 31 (named ConfigurationError by the spec, section 7);
`upstreamError` models the HTTPError from `resp.raise_for_status()`;
`keyError` models a Python KeyError on a dict subscript; `typeError` a
subscript of a non-dict; `attributeError` an attribute access
(such as `.get`) on a non-dict. -/
inductive Err where
  | configurationError : Err
  | upstreamError : Err
  | keyError : String → Err
  | typeError : Err
  | attributeError : Err
deriving DecidableEq, Repr

/-- A canonical article record: the dict built by the adapters, kept as an
association list in insertion order. -/
abbrev CanonRecord := List (String × PyVal)

/-- Successive readings of `datetime.now(timezone.utc).isoformat()`. -/
abbrev Clock := Nat → String

/-- The fixed key set of every canonical record (spec section 3). -/
def canonicalKeys : List String :=
  ["source", "title", "description", "url", "image", "published_at", "fetched_at"]

/-- The keys of a record, in order. -/
def keysOf (r : CanonRecord) : List String := r.map Prod.fst

/-- Python `e["key"]` on a value: KeyError when the key is absent,
TypeError when the value is not a dict. -/
def getItem (a : PyVal) (key : String) : Except Err PyVal :=
  match a with
  | PyVal.dict d =>
    match lookup? d key with
    | some v => Except.ok v
    | Option.none => Except.error (Err.keyError key)
  | _ => Except.error Err.typeError

/-- One entry of the parsed Google-News RSS feed, as `_fallback_to_rss`
consumes it: `title` and `link` are attribute accesses (required by the
feed format), `summary` and `published` are optional attributes read with
getattr defaults, and `source_title` is `e.get("source", {}).get("title", "")`
folded to an option (absent source dict or absent title behave the same
as the access yields the default for them; the mapping supplies ""). -/
structure FeedEntry where
  title : String
  link : String
  summary : Option String
  published : Option String
  source_title : Option String

/-- An optional string as the Python value it denotes (None when absent). -/
def optStr : Option String → PyVal
  | some s => PyVal.str s
  | Option.none => PyVal.none

/-- The dict built for one feed entry in `_fallback_to_rss` (lines 83-91 of
src/news_fetcher.py), given the timestamp reading taken for it. -/
def feedEntryDict (e : FeedEntry) (stamp : String) : PyVal :=
  PyVal.dict
    [("source", PyVal.str (e.source_title.getD "")),
     ("title", PyVal.str e.title),
     ("description", PyVal.str (e.summary.getD "")),
     ("url", PyVal.str e.link),
     ("image", PyVal.none),
     ("published_at", optStr e.published),
     ("fetched_at", PyVal.str stamp)]

/-- The list comprehension of `_fallback_to_rss`: each entry consumes one
clock reading for its `fetched_at`, in list order. Returns the dicts and
the next clock index. -/
def mapEntries (clock : Clock) : Nat → List FeedEntry → List PyVal × Nat
  | k, [] => ([], k)
  | k, e :: es =>
    let r := feedEntryDict e (clock k)
    let p := mapEntries clock (k + 1) es
    (r :: p.1, p.2)

/-- `_fallback_to_rss` (lines 63-93): the feed for the constructed URL is
given by the oracle `feedOracle query language country`; the slice
`feed.entries[:max_results]` is `List.take`. -/
def fallback_to_rss (feedOracle : String → String → String → List FeedEntry)
    (query language country : String) (max_results : Nat)
    (clock : Clock) (k : Nat) : List PyVal × Nat :=
  mapEntries clock k ((feedOracle query language country).take max_results)

/-- The raw list held after step 1 of `fetch_news_gnews` when the library
call was attempted: `gn.get_news(query) or []` with any raised exception
swallowed into the empty list (lines 116-121). -/
def libRaw : Except Unit (Option (List PyVal)) → List PyVal
  | Except.error _ => []
  | Except.ok r => r.getD []

/-- The normalization of one raw record inside the loop of
`fetch_news_gnews` (lines 129-142). Mirrors Python evaluation order:
`a.get` calls fail with AttributeError on a non-dict; `a["title"]` then
`a["url"]` fail with KeyError when absent; the current-time expression in
the `fetched_at` entry is evaluated (one clock reading consumed) only
when `a.get("fetched_at")` is falsy, because Python `or` short-circuits. -/
def normalizeRecord (clock : Clock) (k : Nat) (a : PyVal) :
    Except Err (CanonRecord × Nat) :=
  match a with
  | PyVal.dict d =>
    match lookup? d "title" with
    | Option.none => Except.error (Err.keyError "title")
    | some title =>
      match lookup? d "url" with
      | Option.none => Except.error (Err.keyError "url")
      | some url =>
        let fa := dGet d "fetched_at"
        let p : PyVal × Nat :=
          if truthy fa then (fa, k) else (PyVal.str (clock k), k + 1)
        Except.ok
          ([("source", pyOr (dGet d "source") (dGet d "publisher")),
            ("title", title),
            ("description", dGetD d "description" (PyVal.str "")),
            ("url", url),
            ("image", dGet d "image"),
            ("published_at",
              pyOr (pyOr (dGet d "published_at") (dGet d "published date"))
                (dGet d "published")),
            ("fetched_at", p.1)], p.2)
  | _ => Except.error Err.attributeError

/-- The normalization loop of `fetch_news_gnews` over the whole raw list,
threading the clock index; a failing record aborts the call (the Python
exception propagates out of the loop). -/
def normalizeList (clock : Clock) : Nat → List PyVal →
    Except Err (List CanonRecord × Nat)
  | k, [] => Except.ok ([], k)
  | k, a :: rest =>
    match normalizeRecord clock k a with
    | Except.error e => Except.error e
    | Except.ok rp =>
      match normalizeList clock rp.2 rest with
      | Except.error e => Except.error e
      | Except.ok q => Except.ok (rp.1 :: q.1, q.2)

/-- `fetch_news_gnews` (lines 96-147). The aggregation-library call result
is the oracle `getNews` (it may raise, or return None or a list); the
parsed feed is the oracle `feedOracle`. The look-back period only
configures the library and is folded into `getNews`; the post-fetch sleep
does not affect the returned data and is omitted. -/
def fetch_news_gnews (getNews : Except Unit (Option (List PyVal)))
    (feedOracle : String → String → String → List FeedEntry)
    (query language country : String) (max_results : Nat)
    (force_fallback : Bool) (clock : Clock) (k : Nat) :
    Except Err (List CanonRecord × Nat) :=
  let raw : List PyVal := if force_fallback then [] else libRaw getNews
  let p : List PyVal × Nat :=
    if force_fallback || raw.isEmpty then
      fallback_to_rss feedOracle query language country max_results clock k
    else (raw, k)
  normalizeList clock p.2 p.1

/-- The query parameters of the keyed-backend request (lines 34-40). -/
structure RequestParams where
  q : String
  language : String
  sortBy : String
  pageSize : Nat
  apiKey : String

/-- The HTTP response for the keyed-backend request: whether
`raise_for_status` passes, and the value of `resp.json().get("articles", [])`. -/
structure HttpResp where
  ok : Bool
  articles : List PyVal

/-- The credential resolution `api_key or os.getenv("NEWSAPI_KEY")`
(line 29): the explicit argument when truthy (non-empty), else the
environment value. -/
def resolveKey (api_key env_key : Option String) : Option String :=
  match api_key with
  | some s => if s != "" then some s else env_key
  | Option.none => env_key

/-- The mapping of one upstream article in `fetch_news_newsapi`
(lines 47-55), in Python evaluation order: `a["source"]["name"]`, then
`a["title"]`, `a["description"]`, `a["url"]`, `a["urlToImage"]`,
`a["publishedAt"]`, each a subscript that hard-fails when absent; the
clock is read once per article for `fetched_at`. -/
def mapNewsapiArticle (clock : Clock) (k : Nat) (a : PyVal) :
    Except Err (CanonRecord × Nat) :=
  match getItem a "source" with
  | Except.error e => Except.error e
  | Except.ok src =>
    match getItem src "name" with
    | Except.error e => Except.error e
    | Except.ok srcName =>
      match getItem a "title" with
      | Except.error e => Except.error e
      | Except.ok title =>
        match getItem a "description" with
        | Except.error e => Except.error e
        | Except.ok description =>
          match getItem a "url" with
          | Except.error e => Except.error e
          | Except.ok url =>
            match getItem a "urlToImage" with
            | Except.error e => Except.error e
            | Except.ok image =>
              match getItem a "publishedAt" with
              | Except.error e => Except.error e
              | Except.ok publishedAt =>
                Except.ok
                  ([("source", srcName),
                    ("title", title),
                    ("description", description),
                    ("url", url),
                    ("image", image),
                    ("published_at", publishedAt),
                    ("fetched_at", PyVal.str (clock k))], k + 1)

/-- The list comprehension of `fetch_news_newsapi` over the articles list;
a failing article aborts the whole call. -/
def mapNewsapiArticles (clock : Clock) : Nat → List PyVal →
    Except Err (List CanonRecord × Nat)
  | k, [] => Except.ok ([], k)
  | k, a :: rest =>
    match mapNewsapiArticle clock k a with
    | Except.error e => Except.error e
    | Except.ok rp =>
      match mapNewsapiArticles clock rp.2 rest with
      | Except.error e => Except.error e
      | Except.ok q => Except.ok (rp.1 :: q.1, q.2)

/-- The keyed-backend request and mapping once a credential is in hand
(lines 33-57): build the parameters, consult the HTTP oracle, propagate a
non-success status as UpstreamError, else map the articles. -/
def performRequest (key query language : String) (page_size : Nat)
    (http : RequestParams → HttpResp) (clock : Clock) (k : Nat) :
    Except Err (List CanonRecord × Nat) :=
  let resp := http ⟨query, language, "publishedAt", page_size, key⟩
  if resp.ok then mapNewsapiArticles clock k resp.articles
  else Except.error Err.upstreamError

/-- `fetch_news_newsapi` (lines 23-57): resolve the credential from the
explicit argument or the environment oracle `env_key`; when the resolved
value is untruthy (absent or empty) raise the missing-credential error
before any request; otherwise perform the request. -/
def fetch_news_newsapi (api_key env_key : Option String)
    (query language : String) (page_size : Nat)
    (http : RequestParams → HttpResp) (clock : Clock) (k : Nat) :
    Except Err (List CanonRecord × Nat) :=
  match resolveKey api_key env_key with
  | Option.none => Except.error Err.configurationError
  | some s =>
    if s = "" then Except.error Err.configurationError
    else performRequest s query language page_size http clock k

/-- The normalized source value the pipeline yields for a fallback record:
Python `"" or None` is None, so the feed entry's source title survives only
when present and non-empty. Derived closed form used in theorem statements. -/
def srcVal (e : FeedEntry) : PyVal :=
  match e.source_title with
  | some t => if t = "" then PyVal.none else PyVal.str t
  | Option.none => PyVal.none

/-- The normalized published_at value for a fallback record: the feed's
`published` survives only when present and non-empty. Derived closed form. -/
def pubVal (e : FeedEntry) : PyVal :=
  match e.published with
  | some s => if s = "" then PyVal.none else PyVal.str s
  | Option.none => PyVal.none

/-- The canonical record the whole keyless pipeline yields for one feed
entry on the fallback path, when its stamp is a non-empty string.
Derived closed form used in theorem statements. -/
def normFallbackRecord (e : FeedEntry) (stamp : String) : CanonRecord :=
  [("source", srcVal e),
   ("title", PyVal.str e.title),
   ("description", PyVal.str (e.summary.getD "")),
   ("url", PyVal.str e.link),
   ("image", PyVal.none),
   ("published_at", pubVal e),
   ("fetched_at", PyVal.str stamp)]

/-- The normalized record list for the fallback path, entry i stamped with
reading k + i. Derived closed form used in theorem statements. -/
def fallbackNormed (clock : Clock) : Nat → List FeedEntry → List CanonRecord
  | _, [] => []
  | k, e :: es => normFallbackRecord e (clock k) :: fallbackNormed clock (k + 1) es

/-- Modelled from the claim wording of C3 for comparison with the code:
the first non-null value among the candidates (null when all are null). -/
def firstNonNull : List PyVal → PyVal
  | [] => PyVal.none
  | v :: rest =>
    match v with
    | PyVal.none => firstNonNull rest
    | w => w

/-- The first truthy value among the candidates, falling back to a default:
the meaning of a chained Python `or`. Used to state the amended claims. -/
def firstTruthyD : List PyVal → PyVal → PyVal
  | [], dflt => dflt
  | v :: rest, dflt => if truthy v then v else firstTruthyD rest dflt

/-- Whether a value is Python's None. -/
def isNull : PyVal → Bool
  | PyVal.none => true
  | _ => false

/-- A concrete clock whose every reading is one fixed ISO-8601 instant. -/
def cclock : Clock := fun _ => "2026-01-01T00:00:00+00:00"

/-- A feed oracle returning no entries, for concrete runs that never reach
the fallback. -/
def emptyOracle : String → String → String → List FeedEntry := fun _ _ _ => []

/-- Concrete raw record for C3: `published_at` is the empty string (non-null
but falsy) while `published date` is "B". -/
def c3d : List (String × PyVal) :=
  [("title", PyVal.str "t"), ("url", PyVal.str "u"),
   ("published_at", PyVal.str ""), ("published date", PyVal.str "B")]

/-- Concrete raw record for the amended C3 witness: `published_at` "A" and
`published date` "B", both non-empty. -/
def c3wd : List (String × PyVal) :=
  [("title", PyVal.str "t"), ("url", PyVal.str "u"),
   ("published_at", PyVal.str "A"), ("published date", PyVal.str "B")]

/-- Concrete raw record for C4: `fetched_at` carried but equal to the empty
string. -/
def c4d : List (String × PyVal) :=
  [("title", PyVal.str "t"), ("url", PyVal.str "u"), ("fetched_at", PyVal.str "")]

/-- Concrete raw record for the amended C4 witness: `fetched_at` carried as
the non-empty stamp "T0". -/
def c4wd : List (String × PyVal) :=
  [("title", PyVal.str "t"), ("url", PyVal.str "u"), ("fetched_at", PyVal.str "T0")]

/-- Concrete raw record for C5: `title` present but explicitly null. -/
def c5d : List (String × PyVal) :=
  [("title", PyVal.none), ("url", PyVal.str "u")]

/-- Concrete raw record for the amended C5 witness. -/
def c5wd : List (String × PyVal) :=
  [("title", PyVal.str "T"), ("url", PyVal.str "U")]

/-- Concrete feed entry for C6: no source, no summary, no published date. -/
def c6entry : FeedEntry := ⟨"t", "u", Option.none, Option.none, Option.none⟩

/-- Feed oracle returning exactly the C6 entry. -/
def c6oracle : String → String → String → List FeedEntry := fun _ _ _ => [c6entry]

/-- Concrete raw records for C9: the first carries the late upstream stamp
"zz", the second carries none and gets freshly stamped. -/
def c9d1 : PyVal :=
  PyVal.dict [("title", PyVal.str "t1"), ("url", PyVal.str "u1"),
    ("fetched_at", PyVal.str "zz")]

/-- Second concrete raw record for C9 (no fetched_at). -/
def c9d2 : PyVal :=
  PyVal.dict [("title", PyVal.str "t2"), ("url", PyVal.str "u2")]

/-- The canonical record the pipeline yields for c9d1. -/
def c9r1 : CanonRecord :=
  [("source", PyVal.none), ("title", PyVal.str "t1"), ("description", PyVal.str ""),
   ("url", PyVal.str "u1"), ("image", PyVal.none), ("published_at", PyVal.none),
   ("fetched_at", PyVal.str "zz")]

/-- The canonical record the pipeline yields for c9d2. -/
def c9r2 : CanonRecord :=
  [("source", PyVal.none), ("title", PyVal.str "t2"), ("description", PyVal.str ""),
   ("url", PyVal.str "u2"), ("image", PyVal.none), ("published_at", PyVal.none),
   ("fetched_at", PyVal.str "2026-01-01T00:00:00+00:00")]

/-- The canonical record the pipeline yields for the C6 entry. -/
def c6rec : CanonRecord :=
  [("source", PyVal.none), ("title", PyVal.str "t"), ("description", PyVal.str ""),
   ("url", PyVal.str "u"), ("image", PyVal.none), ("published_at", PyVal.none),
   ("fetched_at", PyVal.str "2026-01-01T00:00:00+00:00")]

/-- The canonical record the pipeline yields for c3d. -/
def c3rec : CanonRecord :=
  [("source", PyVal.none), ("title", PyVal.str "t"), ("description", PyVal.str ""),
   ("url", PyVal.str "u"), ("image", PyVal.none), ("published_at", PyVal.str "B"),
   ("fetched_at", PyVal.str "2026-01-01T00:00:00+00:00")]

/-- The canonical record the pipeline yields for c4d: the empty carried
stamp is overwritten by the clock reading. -/
def c4rec : CanonRecord :=
  [("source", PyVal.none), ("title", PyVal.str "t"), ("description", PyVal.str ""),
   ("url", PyVal.str "u"), ("image", PyVal.none), ("published_at", PyVal.none),
   ("fetched_at", PyVal.str "2026-01-01T00:00:00+00:00")]

/-- The canonical record the pipeline yields for c5d: the null title is
passed through. -/
def c5rec : CanonRecord :=
  [("source", PyVal.none), ("title", PyVal.none), ("description", PyVal.str ""),
   ("url", PyVal.str "u"), ("image", PyVal.none), ("published_at", PyVal.none),
   ("fetched_at", PyVal.str "2026-01-01T00:00:00+00:00")]

/-- The value stored under a key by the keyless normalization of one raw
record (None-free accessor used in theorem statements: Option.none when
normalization raised). -/
def normField (clock : Clock) (k : Nat) (a : PyVal) (key : String) : Option PyVal :=
  match normalizeRecord clock k a with
  | Except.ok rp => lookup? rp.1 key
  | Except.error _ => Option.none

/-- The clock index after the keyless normalization of one raw record
(Option.none when normalization raised). -/
def normNext (clock : Clock) (k : Nat) (a : PyVal) : Option Nat :=
  match normalizeRecord clock k a with
  | Except.ok rp => some rp.2
  | Except.error _ => Option.none

/-- Whether an Except value carries a result rather than an error. -/
def isOkE {e a : Type} : Except e a → Bool
  | Except.ok _ => true
  | Except.error _ => false

/-- A concrete HTTP oracle: every request succeeds with no articles. -/
def chttp : RequestParams → HttpResp := fun _ => ⟨true, []⟩

/-- Concrete raw record (as an association list) for the amended C9
witness: title and url present, no fetched_at. -/
def c9wl : List (String × PyVal) := [("title", PyVal.str "t2"), ("url", PyVal.str "u2")]

/-- Python `"" or None` evaluates to None: the string survives the
source-or-publisher disjunction only when non-empty. -/
theorem pyOr_str_none (x : String) :
    pyOr (PyVal.str x) PyVal.none = if x = "" then PyVal.none else PyVal.str x := by
  by_cases hx : x = "" <;> simp [pyOr, truthy, hx]

/-- The source field a fallback record acquires after normalization. -/
theorem srcVal_eq (e : FeedEntry) :
    pyOr (PyVal.str (e.source_title.getD "")) PyVal.none = srcVal e := by
  cases h : e.source_title with
  | none => simp [srcVal, h, pyOr_str_none]
  | some t => simp [srcVal, h, pyOr_str_none]

/-- The published_at field a fallback record acquires after normalization. -/
theorem pubVal_eq (e : FeedEntry) :
    pyOr (pyOr (optStr e.published) PyVal.none) PyVal.none = pubVal e := by
  cases h : e.published with
  | none => simp [pubVal, h, optStr, pyOr, truthy]
  | some s =>
    by_cases hs : s = "" <;> simp [pubVal, h, optStr, pyOr, truthy, hs]

/-- Normalizing the dict built for a feed entry always succeeds; the
fetched_at entry keeps the stamp when it is truthy and otherwise consumes
one clock reading. -/
theorem normalizeRecord_feedEntryDict (clock : Clock) (k : Nat) (e : FeedEntry)
    (stamp : String) :
    normalizeRecord clock k (feedEntryDict e stamp)
      = Except.ok
        ([("source", pyOr (PyVal.str (e.source_title.getD "")) PyVal.none),
          ("title", PyVal.str e.title),
          ("description", PyVal.str (e.summary.getD "")),
          ("url", PyVal.str e.link),
          ("image", PyVal.none),
          ("published_at", pyOr (pyOr (optStr e.published) PyVal.none) PyVal.none),
          ("fetched_at",
            (if truthy (PyVal.str stamp) then (PyVal.str stamp, k)
             else (PyVal.str (clock k), k + 1)).1)],
         (if truthy (PyVal.str stamp) then (PyVal.str stamp, k)
          else (PyVal.str (clock k), k + 1)).2) := rfl

/-- With a non-empty stamp, normalizing a fallback record keeps the stamp,
consumes no clock reading, and yields the closed-form record. -/
theorem normalizeRecord_feedEntryDict_stamped (clock : Clock) (k : Nat) (e : FeedEntry)
    (stamp : String) (hs : stamp ≠ "") :
    normalizeRecord clock k (feedEntryDict e stamp)
      = Except.ok (normFallbackRecord e stamp, k) := by
  have ht : truthy (PyVal.str stamp) = true := by simp [truthy, hs]
  rw [normalizeRecord_feedEntryDict, ht]
  simp only [if_true, srcVal_eq, pubVal_eq, normFallbackRecord]

/-- Normalizing a fallback record never raises, whatever the stamp. -/
theorem normalizeRecord_feedEntryDict_isOk (clock : Clock) (k : Nat) (e : FeedEntry)
    (stamp : String) :
    ∃ r k1, normalizeRecord clock k (feedEntryDict e stamp) = Except.ok (r, k1) := by
  by_cases ht : truthy (PyVal.str stamp) = true
  · refine ⟨[("source", pyOr (PyVal.str (e.source_title.getD "")) PyVal.none),
      ("title", PyVal.str e.title),
      ("description", PyVal.str (e.summary.getD "")),
      ("url", PyVal.str e.link),
      ("image", PyVal.none),
      ("published_at", pyOr (pyOr (optStr e.published) PyVal.none) PyVal.none),
      ("fetched_at", PyVal.str stamp)], k, ?_⟩
    rw [normalizeRecord_feedEntryDict, if_pos ht]
  · refine ⟨[("source", pyOr (PyVal.str (e.source_title.getD "")) PyVal.none),
      ("title", PyVal.str e.title),
      ("description", PyVal.str (e.summary.getD "")),
      ("url", PyVal.str e.link),
      ("image", PyVal.none),
      ("published_at", pyOr (pyOr (optStr e.published) PyVal.none) PyVal.none),
      ("fetched_at", PyVal.str (clock k))], k + 1, ?_⟩
    rw [normalizeRecord_feedEntryDict, if_neg ht]

/-- Unfolding the normalization loop one step when both the head record and
the tail succeed. -/
theorem normalizeList_cons (clock : Clock) (k : Nat) (a : PyVal) (rest : List PyVal)
    (r : CanonRecord) (k1 : Nat) (l2 : List CanonRecord) (k2 : Nat)
    (h : normalizeRecord clock k a = Except.ok (r, k1))
    (h2 : normalizeList clock k1 rest = Except.ok (l2, k2)) :
    normalizeList clock k (a :: rest) = Except.ok (r :: l2, k2) := by
  simp only [normalizeList, h, h2]

/-- The fallback consumes one clock reading per kept entry. -/
theorem mapEntries_snd (clock : Clock) :
    ∀ (es : List FeedEntry) (k : Nat), (mapEntries clock k es).2 = k + es.length := by
  intro es
  induction es with
  | nil => intro k; simp [mapEntries]
  | cons e es ih =>
    intro k
    simp only [mapEntries, List.length_cons, ih]
    omega

/-- When every clock reading is non-empty, normalizing the fallback output
preserves the stamps, consumes no further readings, and yields the
closed-form record list. -/
theorem normalizeList_mapEntries (clock : Clock) (hclock : ∀ j, clock j ≠ "") :
    ∀ (es : List FeedEntry) (k k' : Nat),
      normalizeList clock k' (mapEntries clock k es).1
        = Except.ok (fallbackNormed clock k es, k') := by
  intro es
  induction es with
  | nil => intro k k'; rfl
  | cons e es ih =>
    intro k k'
    simp only [mapEntries, fallbackNormed]
    exact normalizeList_cons clock k' _ _ _ k' _ k'
      (normalizeRecord_feedEntryDict_stamped clock k' e (clock k) (hclock k))
      (ih (k + 1) k')

/-- Normalizing the fallback output never raises, whatever the clock. -/
theorem normalizeList_mapEntries_isOk (clock : Clock) :
    ∀ (es : List FeedEntry) (k k' : Nat),
      ∃ out, normalizeList clock k' (mapEntries clock k es).1 = Except.ok out := by
  intro es
  induction es with
  | nil => intro k k'; exact ⟨([], k'), rfl⟩
  | cons e es ih =>
    intro k k'
    simp only [mapEntries]
    obtain ⟨r, k1, hr⟩ := normalizeRecord_feedEntryDict_isOk clock k' e (clock k)
    obtain ⟨⟨l2, k2⟩, h2⟩ := ih (k + 1) k1
    exact ⟨(r :: l2, k2), normalizeList_cons clock k' _ _ r k1 l2 k2 hr h2⟩

theorem keysOf_normalizeRecord (clock : Clock) (k : Nat) (a : PyVal)
    (r : CanonRecord) (k' : Nat)
    (h : normalizeRecord clock k a = Except.ok (r, k')) :
    keysOf r = canonicalKeys := by
  cases a with
  | none => simp [normalizeRecord] at h
  | str s => simp [normalizeRecord] at h
  | dict d =>
    simp only [normalizeRecord] at h
    repeat
      first
      | exact Except.noConfusion h
      | split at h
    all_goals
      simp only [Except.ok.injEq, Prod.mk.injEq] at h
      obtain ⟨hr, -⟩ := h
      subst hr
      rfl

theorem keysOf_normalizeList (clock : Clock) :
    ∀ (raws : List PyVal) (k : Nat) (l : List CanonRecord) (k' : Nat),
      normalizeList clock k raws = Except.ok (l, k') →
      ∀ r ∈ l, keysOf r = canonicalKeys := by
  intro raws
  induction raws with
  | nil =>
    intro k l k' h r hr
    simp only [normalizeList, Except.ok.injEq, Prod.mk.injEq] at h
    obtain ⟨hl, -⟩ := h
    subst hl
    simp at hr
  | cons a rest ih =>
    intro k l k' h r hr
    simp only [normalizeList] at h
    split at h
    · exact absurd h (by simp)
    · rename_i rp hrp
      split at h
      · exact absurd h (by simp)
      · rename_i q hq
        simp only [Except.ok.injEq, Prod.mk.injEq] at h
        obtain ⟨hl, -⟩ := h
        subst hl
        rcases List.mem_cons.mp hr with h1 | h2
        · subst h1
          exact keysOf_normalizeRecord clock k a rp.1 rp.2 (by rw [hrp])
        · exact ih rp.2 q.1 q.2 (by rw [hq]) r h2

theorem keysOf_mapNewsapiArticle (clock : Clock) (k : Nat) (a : PyVal)
    (r : CanonRecord) (k' : Nat)
    (h : mapNewsapiArticle clock k a = Except.ok (r, k')) :
    keysOf r = canonicalKeys := by
  simp only [mapNewsapiArticle] at h
  repeat
    first
    | exact Except.noConfusion h
    | split at h
  all_goals
    simp only [Except.ok.injEq, Prod.mk.injEq] at h
    obtain ⟨hr, -⟩ := h
    subst hr
    rfl

theorem keysOf_mapNewsapiArticles (clock : Clock) :
    ∀ (arts : List PyVal) (k : Nat) (l : List CanonRecord) (k' : Nat),
      mapNewsapiArticles clock k arts = Except.ok (l, k') →
      ∀ r ∈ l, keysOf r = canonicalKeys := by
  intro arts
  induction arts with
  | nil =>
    intro k l k' h r hr
    simp only [mapNewsapiArticles, Except.ok.injEq, Prod.mk.injEq] at h
    obtain ⟨hl, -⟩ := h
    subst hl
    simp at hr
  | cons a rest ih =>
    intro k l k' h r hr
    simp only [mapNewsapiArticles] at h
    split at h
    · exact absurd h (by simp)
    · rename_i rp hrp
      split at h
      · exact absurd h (by simp)
      · rename_i q hq
        simp only [Except.ok.injEq, Prod.mk.injEq] at h
        obtain ⟨hl, -⟩ := h
        subst hl
        rcases List.mem_cons.mp hr with h1 | h2
        · subst h1
          exact keysOf_mapNewsapiArticle clock k a rp.1 rp.2 (by rw [hrp])
        · exact ih rp.2 q.1 q.2 (by rw [hq]) r h2

theorem mapEntries_keys (clock : Clock) :
    ∀ (es : List FeedEntry) (k : Nat) (v : PyVal), v ∈ (mapEntries clock k es).1 →
      ∃ dd, v = PyVal.dict dd ∧ dd.map Prod.fst = canonicalKeys := by
  intro es
  induction es with
  | nil => intro k v hv; simp [mapEntries] at hv
  | cons e es ih =>
    intro k v hv
    simp only [mapEntries, List.mem_cons] at hv
    rcases hv with h1 | h2
    · subst h1
      exact ⟨_, rfl, rfl⟩
    · exact ih (k + 1) v h2

theorem keysOf_fetch_gnews (getNews : Except Unit (Option (List PyVal)))
    (feedOracle : String → String → String → List FeedEntry)
    (query language country : String) (m : Nat) (ff : Bool) (clock : Clock) (k : Nat)
    (l : List CanonRecord) (k' : Nat)
    (h : fetch_news_gnews getNews feedOracle query language country m ff clock k
      = Except.ok (l, k')) :
    ∀ r ∈ l, keysOf r = canonicalKeys := by
  simp only [fetch_news_gnews] at h
  exact keysOf_normalizeList clock _ _ l k' h

theorem keysOf_fetch_newsapi (api_key env_key : Option String) (query language : String)
    (p : Nat) (http : RequestParams → HttpResp) (clock : Clock) (k : Nat)
    (l : List CanonRecord) (k' : Nat)
    (h : fetch_news_newsapi api_key env_key query language p http clock k
      = Except.ok (l, k')) :
    ∀ r ∈ l, keysOf r = canonicalKeys := by
  simp only [fetch_news_newsapi] at h
  split at h
  · exact absurd h (by simp)
  · split at h
    · exact absurd h (by simp)
    · simp only [performRequest] at h
      split at h
      · exact keysOf_mapNewsapiArticles clock _ _ l k' h
      · exact absurd h (by simp)

/-- Every reading of the concrete clock is a non-empty string. -/
theorem cclock_ne_empty (j : Nat) : cclock j ≠ "" := by simp [cclock]

/-- A two-candidate Python `or` chain with default equals the nested pyOr
the normalization computes. -/
theorem firstTruthyD_pair (a b c : PyVal) :
    firstTruthyD [a, b] c = pyOr (pyOr a b) c := by
  by_cases h1 : truthy a = true <;> by_cases h2 : truthy b = true <;>
    simp [firstTruthyD, pyOr, h1, h2]

/-- C1: in the keyless-backend adapter with force_fallback false, whenever
the aggregation-library call raises (swallowed into libRaw = []) or
returns zero results, no error is propagated (the result is ok) and the
returned value is exactly the normalization of the feed-fallback
adapter's output for the same query, language, country and max_results. -/
theorem c1_fallback_on_empty_or_raise
    (getNews : Except Unit (Option (List PyVal)))
    (feedOracle : String → String → String → List FeedEntry)
    (query language country : String) (max_results : Nat) (clock : Clock) (k : Nat)
    (h : libRaw getNews = []) :
    fetch_news_gnews getNews feedOracle query language country max_results false clock k
      = normalizeList clock
          (fallback_to_rss feedOracle query language country max_results clock k).2
          (fallback_to_rss feedOracle query language country max_results clock k).1
    ∧ isOkE (fetch_news_gnews getNews feedOracle query language country max_results
        false clock k) = true := by
  have h1 : fetch_news_gnews getNews feedOracle query language country max_results false clock k
      = normalizeList clock
          (fallback_to_rss feedOracle query language country max_results clock k).2
          (fallback_to_rss feedOracle query language country max_results clock k).1 := by
    simp [fetch_news_gnews, h]
  refine ⟨h1, ?_⟩
  rw [h1]
  simp only [fallback_to_rss]
  obtain ⟨out, hout⟩ := normalizeList_mapEntries_isOk clock
    ((feedOracle query language country).take max_results) k
    ((mapEntries clock k ((feedOracle query language country).take max_results)).2)
  rw [hout]
  rfl

/-- Witness for C1: the library raises, the feed holds one entry; the
hypothesis libRaw = [] is discharged by rfl. -/
theorem c1_fallback_on_empty_or_raise_witness :
    fetch_news_gnews (Except.error ()) c6oracle "World" "en" "US" 10 false cclock 0
      = normalizeList cclock
          (fallback_to_rss c6oracle "World" "en" "US" 10 cclock 0).2
          (fallback_to_rss c6oracle "World" "en" "US" 10 cclock 0).1 :=
  (c1_fallback_on_empty_or_raise (Except.error ()) c6oracle "World" "en" "US" 10 cclock 0
    rfl).1

/-- C2: with force_fallback true the aggregation-library result is never
used: for every possible library outcome, the keyless adapter returns the
normalization of the feed-fallback adapter's output for the same
parameters. -/
theorem c2_force_fallback_ignores_library
    (getNews : Except Unit (Option (List PyVal)))
    (feedOracle : String → String → String → List FeedEntry)
    (query language country : String) (max_results : Nat) (clock : Clock) (k : Nat) :
    fetch_news_gnews getNews feedOracle query language country max_results true clock k
      = normalizeList clock
          (fallback_to_rss feedOracle query language country max_results clock k).2
          (fallback_to_rss feedOracle query language country max_results clock k).1 := by
  simp [fetch_news_gnews]

/-- Counterexample to C3 as stated: a record with published_at = "" (a
non-null string) and published date = "B" normalizes to published_at "B",
while the first non-null candidate is "": the code takes the first truthy
value (Python or), not the first non-null one. -/
theorem c3_counterexample_empty_string_skipped :
    normalizeRecord cclock 0 (PyVal.dict c3d) = Except.ok (c3rec, 1)
    ∧ lookup? c3rec "published_at" = some (PyVal.str "B")
    ∧ firstNonNull [dGet c3d "published_at", dGet c3d "published date", dGet c3d "published"]
        = PyVal.str ""
    ∧ PyVal.str "B" ≠ PyVal.str "" :=
  ⟨rfl, rfl, rfl, by intro hc; injection hc with hs; exact absurd hs (by decide)⟩

/-- C3 amended: for every raw dict record carrying title and url, the
normalized published_at is the first truthy (non-null, non-empty) value
among published_at then "published date", defaulting to the raw published
value; with both published_at = "A" and "published date" = "B" non-empty
this yields "A" (see the witness). -/
theorem c3_amended_first_truthy (clock : Clock) (k : Nat) (d : List (String × PyVal))
    (t u : PyVal) (ht : lookup? d "title" = some t) (hu : lookup? d "url" = some u) :
    normField clock k (PyVal.dict d) "published_at"
      = some (firstTruthyD [dGet d "published_at", dGet d "published date"]
          (dGet d "published")) := by
  simp only [normField, normalizeRecord, ht, hu, firstTruthyD_pair]
  by_cases hf : truthy (dGet d "fetched_at") = true
  · rw [if_pos hf]; rfl
  · rw [if_neg hf]; rfl

/-- Witness for the amended C3: on the record with published_at "A" and
"published date" "B", normalization yields "A". -/
theorem c3_amended_first_truthy_witness :
    normField cclock 0 (PyVal.dict c3wd) "published_at"
      = some (firstTruthyD [dGet c3wd "published_at", dGet c3wd "published date"]
          (dGet c3wd "published"))
    ∧ firstTruthyD [dGet c3wd "published_at", dGet c3wd "published date"]
        (dGet c3wd "published") = PyVal.str "A" :=
  ⟨c3_amended_first_truthy cclock 0 c3wd (PyVal.str "t") (PyVal.str "u") rfl rfl, rfl⟩

/-- Counterexample to C4 as stated: a record that carries fetched_at = ""
(it has the key, with a string value) does not keep it; the empty string
is falsy, so the record is re-stamped with the current clock reading. -/
theorem c4_counterexample_empty_fetched_overwritten :
    normalizeRecord cclock 0 (PyVal.dict c4d) = Except.ok (c4rec, 1)
    ∧ lookup? c4d "fetched_at" = some (PyVal.str "")
    ∧ lookup? c4rec "fetched_at" = some (PyVal.str "2026-01-01T00:00:00+00:00")
    ∧ PyVal.str "2026-01-01T00:00:00+00:00" ≠ PyVal.str "" :=
  ⟨rfl, rfl, rfl, by intro hc; injection hc with hs; exact absurd hs (by decide)⟩

/-- C4 amended: a raw record whose fetched_at is a truthy (non-empty)
string keeps exactly that value, and no clock reading is consumed (the
current-time expression is not even evaluated); records whose fetched_at
is absent, null or empty are stamped instead. -/
theorem c4_amended_truthy_fetched_preserved (clock : Clock) (k : Nat)
    (d : List (String × PyVal)) (t u : PyVal) (s : String)
    (ht : lookup? d "title" = some t) (hu : lookup? d "url" = some u)
    (hf : dGet d "fetched_at" = PyVal.str s) (hs : s ≠ "") :
    normField clock k (PyVal.dict d) "fetched_at" = some (PyVal.str s)
    ∧ normNext clock k (PyVal.dict d) = some k := by
  have htr : truthy (dGet d "fetched_at") = true := by rw [hf]; simp [truthy, hs]
  constructor
  · simp only [normField, normalizeRecord, ht, hu]
    rw [if_pos htr, hf]
    rfl
  · simp only [normNext, normalizeRecord, ht, hu]
    rw [if_pos htr]

/-- Witness for the amended C4: fetched_at "T0" is retained unchanged. -/
theorem c4_amended_truthy_fetched_preserved_witness :
    normField cclock 0 (PyVal.dict c4wd) "fetched_at" = some (PyVal.str "T0")
    ∧ normNext cclock 0 (PyVal.dict c4wd) = some 0 :=
  c4_amended_truthy_fetched_preserved cclock 0 c4wd (PyVal.str "t") (PyVal.str "u") "T0"
    rfl rfl rfl (by decide)

/-- Counterexample to C5 as stated: a raw record whose title key is
present but explicitly null normalizes without failure to a canonical
record whose title is null, so title values are not guaranteed to be
non-null strings. -/
theorem c5_counterexample_null_title_passthrough :
    normalizeRecord cclock 0 (PyVal.dict c5d) = Except.ok (c5rec, 1)
    ∧ lookup? c5rec "title" = some PyVal.none
    ∧ isNull PyVal.none = true :=
  ⟨rfl, rfl, rfl⟩

/-- C5 amended: the title and url keys are always present in every
canonical record, and a raw record lacking the title or url key hard-fails
(KeyError in the keyless normalization; some error in the keyed mapping,
whose subscripts are checked source-first); the stored values are copied
verbatim from upstream, so they are null exactly when upstream supplied
null; the feed-fallback records always provide string titles and urls. -/
theorem c5_amended_title_url_keys (clock : Clock) (k : Nat) (d : List (String × PyVal)) :
    (lookup? d "title" = Option.none →
      normalizeRecord clock k (PyVal.dict d) = Except.error (Err.keyError "title"))
    ∧ (∀ t, lookup? d "title" = some t → lookup? d "url" = Option.none →
        normalizeRecord clock k (PyVal.dict d) = Except.error (Err.keyError "url"))
    ∧ (∀ t u, lookup? d "title" = some t → lookup? d "url" = some u →
        normField clock k (PyVal.dict d) "title" = some t
        ∧ normField clock k (PyVal.dict d) "url" = some u)
    ∧ (lookup? d "title" = Option.none →
        ∃ er, mapNewsapiArticle clock k (PyVal.dict d) = Except.error er)
    ∧ (∀ sv nv t de u im pa, lookup? d "source" = some sv →
        getItem sv "name" = Except.ok nv →
        lookup? d "title" = some t → lookup? d "description" = some de →
        lookup? d "url" = some u → lookup? d "urlToImage" = some im →
        lookup? d "publishedAt" = some pa →
        mapNewsapiArticle clock k (PyVal.dict d)
          = Except.ok ([("source", nv), ("title", t), ("description", de), ("url", u),
              ("image", im), ("published_at", pa),
              ("fetched_at", PyVal.str (clock k))], k + 1))
    ∧ (∀ e stamp, lookup? (normFallbackRecord e stamp) "title" = some (PyVal.str e.title)
        ∧ lookup? (normFallbackRecord e stamp) "url" = some (PyVal.str e.link)) := by
  refine ⟨?_, ?_, ?_, ?_, ?_, ?_⟩
  · intro h
    simp only [normalizeRecord, h]
  · intro t ht hu
    simp only [normalizeRecord, ht, hu]
  · intro t u ht hu
    constructor
    · simp only [normField, normalizeRecord, ht, hu]
      by_cases hf : truthy (dGet d "fetched_at") = true
      · rw [if_pos hf]; rfl
      · rw [if_neg hf]; rfl
    · simp only [normField, normalizeRecord, ht, hu]
      by_cases hf : truthy (dGet d "fetched_at") = true
      · rw [if_pos hf]; rfl
      · rw [if_neg hf]; rfl
  · intro hT
    cases hs : getItem (PyVal.dict d) "source" with
    | error e => exact ⟨e, by simp only [mapNewsapiArticle, hs]⟩
    | ok sv =>
      cases hn : getItem sv "name" with
      | error e => exact ⟨e, by simp only [mapNewsapiArticle, hs, hn]⟩
      | ok nv =>
        have hti : getItem (PyVal.dict d) "title" = Except.error (Err.keyError "title") := by
          simp only [getItem, hT]
        exact ⟨Err.keyError "title", by simp only [mapNewsapiArticle, hs, hn, hti]⟩
  · intro sv nv t de u im pa hs hn ht hde hu him hpa
    have h1 : getItem (PyVal.dict d) "source" = Except.ok sv := by simp only [getItem, hs]
    have h2 : getItem (PyVal.dict d) "title" = Except.ok t := by simp only [getItem, ht]
    have h3 : getItem (PyVal.dict d) "description" = Except.ok de := by
      simp only [getItem, hde]
    have h4 : getItem (PyVal.dict d) "url" = Except.ok u := by simp only [getItem, hu]
    have h5 : getItem (PyVal.dict d) "urlToImage" = Except.ok im := by
      simp only [getItem, him]
    have h6 : getItem (PyVal.dict d) "publishedAt" = Except.ok pa := by
      simp only [getItem, hpa]
    simp only [mapNewsapiArticle, h1, hn, h2, h3, h4, h5, h6]
  · intro e stamp
    exact ⟨rfl, rfl⟩

/-- Witness for the amended C5: a record lacking the title key makes the
keyless normalization raise KeyError "title". -/
theorem c5_amended_title_url_keys_witness :
    normalizeRecord cclock 0 (PyVal.dict [("url", PyVal.str "u")])
      = Except.error (Err.keyError "title") :=
  (c5_amended_title_url_keys cclock 0 [("url", PyVal.str "u")]).1 rfl

/-- Counterexample to C6 as stated: with the library raising and a feed
entry that has no source, the final record's source is null, not the
empty string (the fallback writes "", but the normalization's
source-or-publisher disjunction turns the falsy "" into None). -/
theorem c6_counterexample_source_null_not_empty :
    fetch_news_gnews (Except.error ()) c6oracle "World" "en" "US" 10 false cclock 0
      = Except.ok ([c6rec], 1)
    ∧ lookup? c6rec "source" = some PyVal.none
    ∧ PyVal.none ≠ PyVal.str "" :=
  ⟨rfl, rfl, by intro hc; exact PyVal.noConfusion hc⟩

/-- C6 amended: with the library raising (fallback runs) and non-empty
clock readings, the keyless adapter returns the closed-form record list in
which each record's source equals the feed entry's source title when that
is present and non-empty, and is null otherwise. -/
theorem c6_amended_source_title_or_null
    (feedOracle : String → String → String → List FeedEntry)
    (query language country : String) (m : Nat) (clock : Clock) (k : Nat)
    (hclock : ∀ j, clock j ≠ "") :
    fetch_news_gnews (Except.error ()) feedOracle query language country m false clock k
      = Except.ok (fallbackNormed clock k ((feedOracle query language country).take m),
          k + ((feedOracle query language country).take m).length)
    ∧ (∀ e stamp, lookup? (normFallbackRecord e stamp) "source" = some (srcVal e)) := by
  constructor
  · have h1 : fetch_news_gnews (Except.error ()) feedOracle query language country m
        false clock k
        = normalizeList clock
            (fallback_to_rss feedOracle query language country m clock k).2
            (fallback_to_rss feedOracle query language country m clock k).1 := by
      simp [fetch_news_gnews, libRaw]
    rw [h1]
    have h3 : (fallback_to_rss feedOracle query language country m clock k).2
        = k + ((feedOracle query language country).take m).length :=
      mapEntries_snd clock _ k
    rw [h3]
    exact normalizeList_mapEntries clock hclock _ k _
  · intro e stamp
    rfl

/-- Witness for the amended C6 at the concrete one-entry feed. -/
theorem c6_amended_source_title_or_null_witness :
    fetch_news_gnews (Except.error ()) c6oracle "World" "en" "US" 10 false cclock 0
      = Except.ok (fallbackNormed cclock 0 ((c6oracle "World" "en" "US").take 10),
          0 + ((c6oracle "World" "en" "US").take 10).length) :=
  (c6_amended_source_title_or_null c6oracle "World" "en" "US" 10 cclock 0
    cclock_ne_empty).1

/-- C7: the keyed adapter called with no explicit key and no environment
key raises the missing-credential error (the spec's ConfigurationError,
the code's ValueError); the result is the same for every HTTP oracle, so
no network request can influence it — the failure precedes the request —
and no fallback exists on this path. -/
theorem c7_missing_key_raises_before_request (query language : String) (p : Nat)
    (http : RequestParams → HttpResp) (clock : Clock) (k : Nat) :
    fetch_news_newsapi Option.none Option.none query language p http clock k
      = Except.error Err.configurationError := rfl

/-- C8: every record in the output of the keyless adapter, of the keyed
adapter, and of the feed-fallback adapter has exactly the canonical key
set source, title, description, url, image, published_at, fetched_at, in
that order. -/
theorem c8_uniform_key_set :
    (∀ (getNews : Except Unit (Option (List PyVal)))
       (feedOracle : String → String → String → List FeedEntry)
       (query language country : String) (m : Nat) (ff : Bool) (clock : Clock) (k : Nat)
       (l : List CanonRecord) (k' : Nat),
      fetch_news_gnews getNews feedOracle query language country m ff clock k
        = Except.ok (l, k') →
      ∀ r ∈ l, keysOf r = canonicalKeys)
    ∧ (∀ (api_key env_key : Option String) (query language : String) (p : Nat)
         (http : RequestParams → HttpResp) (clock : Clock) (k : Nat)
         (l : List CanonRecord) (k' : Nat),
      fetch_news_newsapi api_key env_key query language p http clock k
        = Except.ok (l, k') →
      ∀ r ∈ l, keysOf r = canonicalKeys)
    ∧ (∀ (feedOracle : String → String → String → List FeedEntry)
         (query language country : String) (m : Nat) (clock : Clock) (k : Nat)
         (v : PyVal),
      v ∈ (fallback_to_rss feedOracle query language country m clock k).1 →
      ∃ dd, v = PyVal.dict dd ∧ dd.map Prod.fst = canonicalKeys) :=
  ⟨fun gn fo q lang c m ff clock k l k' h =>
      keysOf_fetch_gnews gn fo q lang c m ff clock k l k' h,
   fun ak ek q lang p http clock k l k' h =>
      keysOf_fetch_newsapi ak ek q lang p http clock k l k' h,
   fun _ _ _ _ _ clock k v hv => mapEntries_keys clock _ k v hv⟩

/-- Witness for C8: the record produced by a concrete keyless fetch has
the canonical key set. -/
theorem c8_uniform_key_set_witness : keysOf c6rec = canonicalKeys :=
  c8_uniform_key_set.1 (Except.error ()) c6oracle "World" "en" "US" 10 false cclock 0
    [c6rec] 1 rfl c6rec (by simp)

/-- Counterexample to C9 as stated: a keyless fetch whose first record
carries the upstream stamp "zz" and whose second is freshly stamped
returns fetched_at values that strictly decrease in list order, so the
sequence is not monotonically non-decreasing. -/
theorem c9_counterexample_decreasing_fetched :
    fetch_news_gnews (Except.ok (some [c9d1, c9d2])) emptyOracle "World" "en" "US" 10
        false cclock 0
      = Except.ok ([c9r1, c9r2], 1)
    ∧ lookup? c9r1 "fetched_at" = some (PyVal.str "zz")
    ∧ lookup? c9r2 "fetched_at" = some (PyVal.str "2026-01-01T00:00:00+00:00")
    ∧ "2026-01-01T00:00:00+00:00" < "zz" :=
  ⟨rfl, rfl, rfl, by rw [String.lt_iff_toList_lt]; decide⟩

/-- C9 amended: each record's fetched_at is either its already-carried
truthy upstream value (no clock reading consumed) or the clock reading
taken at its own normalization step (one reading consumed); no
monotonicity across the list follows when upstream stamps interleave with
fresh ones. -/
theorem c9_amended_fetched_stamp_or_upstream (clock : Clock) (k : Nat)
    (d : List (String × PyVal)) (t u : PyVal)
    (ht : lookup? d "title" = some t) (hu : lookup? d "url" = some u) :
    (truthy (dGet d "fetched_at") = true →
      normField clock k (PyVal.dict d) "fetched_at" = some (dGet d "fetched_at")
      ∧ normNext clock k (PyVal.dict d) = some k)
    ∧ (truthy (dGet d "fetched_at") = false →
      normField clock k (PyVal.dict d) "fetched_at" = some (PyVal.str (clock k))
      ∧ normNext clock k (PyVal.dict d) = some (k + 1)) := by
  constructor
  · intro htr
    constructor
    · simp only [normField, normalizeRecord, ht, hu]
      rw [if_pos htr]
      rfl
    · simp only [normNext, normalizeRecord, ht, hu]
      rw [if_pos htr]
  · intro htr
    have htr' : ¬ truthy (dGet d "fetched_at") = true := by simp [htr]
    constructor
    · simp only [normField, normalizeRecord, ht, hu]
      rw [if_neg htr']
      rfl
    · simp only [normNext, normalizeRecord, ht, hu]
      rw [if_neg htr']

/-- Witness for the amended C9: a record without fetched_at is stamped
with the current clock reading and consumes it. -/
theorem c9_amended_fetched_stamp_or_upstream_witness :
    normField cclock 0 (PyVal.dict c9wl) "fetched_at"
      = some (PyVal.str "2026-01-01T00:00:00+00:00")
    ∧ normNext cclock 0 (PyVal.dict c9wl) = some 1 :=
  (c9_amended_fetched_stamp_or_upstream cclock 0 c9wl (PyVal.str "t2") (PyVal.str "u2")
    rfl rfl).2 rfl

/-- C10: a non-empty explicit api_key is resolved as the credential and
the request is performed with it, independently of the environment; an
explicit empty-string api_key behaves exactly like an absent key (the
environment is consulted instead), and when the environment is also unset
or empty the missing-credential failure is raised. -/
theorem c10_explicit_key_used_env_fallback (s : String) (env_key : Option String)
    (query language : String) (p : Nat) (http : RequestParams → HttpResp)
    (clock : Clock) (k : Nat) (hs : s ≠ "") :
    fetch_news_newsapi (some s) env_key query language p http clock k
      = performRequest s query language p http clock k
    ∧ resolveKey (some s) env_key = some s
    ∧ fetch_news_newsapi (some "") env_key query language p http clock k
      = fetch_news_newsapi Option.none env_key query language p http clock k
    ∧ fetch_news_newsapi (some "") Option.none query language p http clock k
      = Except.error Err.configurationError
    ∧ fetch_news_newsapi (some "") (some "") query language p http clock k
      = Except.error Err.configurationError := by
  have hr : resolveKey (some s) env_key = some s := by simp [resolveKey, hs]
  refine ⟨?_, hr, ?_, ?_, ?_⟩
  · simp only [fetch_news_newsapi, hr]
    rw [if_neg hs]
  · rfl
  · rfl
  · rfl

/-- Witness for C10 at the concrete key "KEY" and environment "ENVKEY". -/
theorem c10_explicit_key_used_env_fallback_witness :
    fetch_news_newsapi (some "KEY") (some "ENVKEY") "q" "en" 20 chttp cclock 0
      = performRequest "KEY" "q" "en" 20 chttp cclock 0
    ∧ resolveKey (some "KEY") (some "ENVKEY") = some "KEY"
    ∧ fetch_news_newsapi (some "") (some "ENVKEY") "q" "en" 20 chttp cclock 0
      = fetch_news_newsapi Option.none (some "ENVKEY") "q" "en" 20 chttp cclock 0
    ∧ fetch_news_newsapi (some "") Option.none "q" "en" 20 chttp cclock 0
      = Except.error Err.configurationError
    ∧ fetch_news_newsapi (some "") (some "") "q" "en" 20 chttp cclock 0
      = Except.error Err.configurationError :=
  c10_explicit_key_used_env_fallback "KEY" (some "ENVKEY") "q" "en" 20 chttp cclock 0
    (by decide)

end NewsFetcher
